import Mathlib

/-!
Shallow embedding of the boardcamp rental backend (src/server.js).

Modelling conventions:
- Calendar dates are integers (days since an epoch); dayjs add/diff on
  formatted YYYY-MM-DD dates become integer addition/subtraction, as all
  date arithmetic in the source works in whole days.
- Numeric JSON/SQL values (pricePerDay, daysRented as received from the
  body, originalPrice, delayFee) are rationals.
- A SQL table is a list of rows; SELECT ... WHERE id = $1 is List.find?,
  a row count is the length of a List.filter.
- Each Express handler becomes a function from the current rentals table
  (plus the read-only games/customers tables and the current date) to the
  HTTP status it sends and the rentals table afterwards.  A JavaScript
  exception caught by the surrounding try/catch (e.g. dereferencing
  rows[0] of an empty query result) is modelled as the 500 response the
  catch block sends, with the table unchanged.
-/

namespace Boardcamp

/-- A row of the games table, restricted to the columns the rental
lifecycle reads (id, "stockTotal", "pricePerDay"). -/
structure Game where
  id : Int
  stockTotal : Nat
  pricePerDay : Rat
deriving DecidableEq

/-- A row of the customers table, restricted to the id column, which is
all the rental lifecycle reads. -/
structure Customer where
  id : Int
deriving DecidableEq

/-- A row of the rentals table. -/
structure Rental where
  id : Int
  customerId : Int
  gameId : Int
  rentDate : Int
  daysRented : Rat
  originalPrice : Rat
  returnDate : Option Int
  delayFee : Option Rat
deriving DecidableEq

/-- The body of a POST /rentals request after express.json parsing,
holding the three numeric fields the handler destructures. -/
structure RentalReq where
  customerId : Int
  gameId : Int
  daysRented : Rat
deriving DecidableEq

/-- SELECT from games WHERE id = $1 (first matching row, if any). -/
def findGame (games : List Game) (gid : Int) : Option Game :=
  games.find? (fun g => g.id == gid)

/-- SELECT id FROM customers WHERE id = $1 (first matching row, if any). -/
def findCustomer (customers : List Customer) (cid : Int) : Option Customer :=
  customers.find? (fun c => c.id == cid)

/-- SELECT from rentals WHERE id = $1 (first matching row, if any). -/
def findRental (rentals : List Rental) (rid : Int) : Option Rental :=
  rentals.find? (fun r => r.id == rid)

/-- rentalsReqSchema: joi requires customerId, gameId and daysRented to be
present numbers.  A typed RentalReq carries three numbers by construction,
so validation always succeeds; the schema imposes no positivity or
integrality constraint on daysRented. -/
def rentalsReqSchemaValid (_ : RentalReq) : Bool := true

/-- POST /rentals handler (src/server.js lines 261-330).  Returns the HTTP
status sent and the rentals table after the request.  Source order is kept:
the handler reads "pricePerDay" of rows[0] of the game query before any
existence check, so a missing game throws and the catch sends 500; then the
customer check (400), the gameExists check (unreachable 400), the
daysRented <= 0 check (400), and the stock check, which counts all rentals
rows for the game regardless of "returnDate". -/
def postRentals (games : List Game) (customers : List Customer)
    (rentals : List Rental) (today : Int) (newId : Int) (req : RentalReq) :
    Nat × List Rental :=
  if !rentalsReqSchemaValid req then (400, rentals)
  else
    match findGame games req.gameId with
    | none => (500, rentals)
    | some game =>
      let price := game.pricePerDay * req.daysRented
      if (findCustomer customers req.customerId).isNone then (400, rentals)
      else if (findGame games req.gameId).isNone then (400, rentals)
      else if req.daysRented ≤ 0 then (400, rentals)
      else
        let rentedGames := rentals.filter (fun r => r.gameId == req.gameId)
        if game.stockTotal ≤ rentedGames.length then (400, rentals)
        else
          (201, rentals ++
            [{ id := newId, customerId := req.customerId, gameId := req.gameId,
               rentDate := today, daysRented := req.daysRented,
               originalPrice := price, returnDate := none, delayFee := none }])

/-- The delay-fee computation of the return handler (src/server.js lines
354-370): pricePerDay = originalPrice / daysRented, expectedReturnDate =
rentDate + daysRented days, diff = returnDate - expectedReturnDate in days,
delayFee = pricePerDay * diff when diff > 0, otherwise null. -/
def computeDelayFee (originalPrice daysRented : Rat) (rentDate today : Int) :
    Option Rat :=
  let pricePerDay := originalPrice / daysRented
  let expectedReturnDate : Rat := (rentDate : Rat) + daysRented
  let diff : Rat := (today : Rat) - expectedReturnDate
  if 0 < diff then some (pricePerDay * diff) else none

/-- UPDATE rentals SET "returnDate"=$1, "delayFee"=$2 WHERE id = $3. -/
def updateRentalRow (rentals : List Rental) (rid : Int) (ret : Int)
    (fee : Option Rat) : List Rental :=
  rentals.map (fun r =>
    if r.id == rid then { r with returnDate := some ret, delayFee := fee } else r)

/-- POST /rentals/:id/return handler (src/server.js lines 332-381).  The
existence check is written rows.length > 0 -> 404, so an existing rental is
answered 404 at once; when no rental exists the handler dereferences
rows[0] of the second (empty) query, throws, and the catch sends 500.  The
remaining branches (400 for a null "returnDate", the fee computation and
the UPDATE) are kept as written even though no input reaches them. -/
def postRentalReturn (rentals : List Rental) (today : Int) (rid : Int) :
    Nat × List Rental :=
  if (findRental rentals rid).isSome then (404, rentals)
  else
    match findRental rentals rid with
    | none => (500, rentals)
    | some rental =>
      if rental.returnDate.isNone then (400, rentals)
      else
        let fee := computeDelayFee rental.originalPrice rental.daysRented
          rental.rentDate today
        (201, updateRentalRow rentals rid today fee)

/-- DELETE /rentals/:id handler (src/server.js lines 383-409).  Same
inverted existence check as the return handler: an existing rental is
answered 404, a missing one throws on rows[0] and the catch sends 500.  On
the (unreachable) success path the handler runs the DELETE query and then
ends without sending any response, modelled as status none. -/
def deleteRentalById (rentals : List Rental) (rid : Int) :
    Option Nat × List Rental :=
  if (findRental rentals rid).isSome then (some 404, rentals)
  else
    match findRental rentals rid with
    | none => (some 500, rentals)
    | some rental =>
      if rental.returnDate.isNone then (some 400, rentals)
      else (none, rentals.filter (fun r => r.id != rid))

/-- Number of open rentals of a game: rentals rows with this "gameId" and
"returnDate" null. -/
def openRentalCount (rentals : List Rental) (gid : Int) : Nat :=
  (rentals.filter (fun r => r.gameId == gid && r.returnDate.isNone)).length

/-- Number of rentals rows with this "gameId", open or closed: the count
the stock check of POST /rentals actually uses. -/
def gameRentalCount (rentals : List Rental) (gid : Int) : Nat :=
  (rentals.filter (fun r => r.gameId == gid)).length

/-- A rental-lifecycle request, for sequential execution of the three
mutating handlers against a shared rentals table. -/
inductive Op
  | create (today : Int) (newId : Int) (req : RentalReq)
  | close (today : Int) (rid : Int)
  | cancel (rid : Int)
deriving DecidableEq

/-- Effect of one request on the rentals table (games and customers tables
are read-only for the rental lifecycle). -/
def step (games : List Game) (customers : List Customer)
    (rentals : List Rental) : Op → List Rental
  | Op.create today newId req => (postRentals games customers rentals today newId req).2
  | Op.close today rid => (postRentalReturn rentals today rid).2
  | Op.cancel rid => (deleteRentalById rentals rid).2

/-- The rentals table after serving a sequence of lifecycle requests,
starting from an empty rentals table. -/
def run (games : List Game) (customers : List Customer) (ops : List Op) :
    List Rental :=
  ops.foldl (step games customers) []

/-- The return handler never changes the rentals table: an existing rental
is answered 404 by the inverted existence check before any write, and a
missing one makes the handler throw on rows[0], answered 500 by the catch
block before any write. -/
theorem postRentalReturn_snd (rentals : List Rental) (today rid : Int) :
    (postRentalReturn rentals today rid).2 = rentals := by
  unfold postRentalReturn
  cases h : findRental rentals rid <;> simp [h]

/-- The delete handler never changes the rentals table, for the same
reason as the return handler. -/
theorem deleteRentalById_snd (rentals : List Rental) (rid : Int) :
    (deleteRentalById rentals rid).2 = rentals := by
  unfold deleteRentalById
  cases h : findRental rentals rid <;> simp [h]

/-- Open rentals of a game are a subset of all rentals of the game, so the
open count is bounded by the total count. -/
theorem openRentalCount_le_gameRentalCount (rentals : List Rental) (gid : Int) :
    openRentalCount rentals gid ≤ gameRentalCount rentals gid := by
  induction rentals with
  | nil => simp [openRentalCount, gameRentalCount]
  | cons r rs ih =>
    simp only [openRentalCount, gameRentalCount, List.filter_cons] at ih ⊢
    cases hg : (r.gameId == gid) <;> cases hr : r.returnDate.isNone <;>
      simp [hg, hr] <;> omega

/-- Claim C2: the claim says closing an existing, already-closed rental
fails with the AlreadyClosed state error (status 400).  The source's
existence check is inverted (rows.length > 0 answers 404), so an existing
closed rental is answered 404, not 400; no write happens. -/
theorem c2_code_eval :
    (postRentalReturn [⟨1, 1, 1, 0, 3, 30, some 3, none⟩] 10 1).1 = 404 ∧
    (postRentalReturn [⟨1, 1, 1, 0, 3, 30, some 3, none⟩] 10 1).2 =
      [⟨1, 1, 1, 0, 3, 30, some 3, none⟩] := by decide

/-- Claim C3: the claim says closing a rental id with no rental row fails
with NotFound (status 404).  The source passes the inverted existence
check, dereferences rows[0] of an empty query result, throws, and the
catch block answers 500, not 404; no write happens. -/
theorem c3_code_eval :
    (postRentalReturn [⟨1, 1, 1, 0, 3, 30, none, none⟩] 10 9999).1 = 500 ∧
    (postRentalReturn [⟨1, 1, 1, 0, 3, 30, none, none⟩] 10 9999).2 =
      [⟨1, 1, 1, 0, 3, 30, none, none⟩] := by decide

/-- Claim C4: the claim says deleting an existing closed rental succeeds
with 204 and removes the row.  The source's inverted existence check
answers 404 for any existing rental, closed or open, and the row is not
removed (and the success path would send no response at all). -/
theorem c4_code_eval :
    (deleteRentalById [⟨1, 1, 1, 0, 3, 30, some 3, none⟩] 1).1 = some 404 ∧
    (deleteRentalById [⟨1, 1, 1, 0, 3, 30, some 3, none⟩] 1).2 =
      [⟨1, 1, 1, 0, 3, 30, some 3, none⟩] ∧
    (deleteRentalById [⟨1, 1, 1, 0, 3, 30, none, none⟩] 1).1 = some 404 ∧
    (deleteRentalById [⟨1, 1, 1, 0, 3, 30, none, none⟩] 1).2 =
      [⟨1, 1, 1, 0, 3, 30, none, none⟩] := by decide

/-- Claim C7: the claim says a create-rental request with an unknown
gameId is rejected with 400.  The source reads "pricePerDay" of rows[0]
of the game query before any existence check, so an unknown gameId throws
and the catch block answers 500, not 400 (the gameExists check that would
answer 400 is unreachable); no row is inserted. -/
theorem c7_code_eval :
    findGame [⟨1, 1, 10⟩] 9999 = none ∧
    (postRentals [⟨1, 1, 10⟩] [⟨1⟩] [] 0 1 ⟨1, 9999, 3⟩).1 = 500 ∧
    (postRentals [⟨1, 1, 10⟩] [⟨1⟩] [] 0 1 ⟨1, 9999, 3⟩).2 = [] := by decide

/-- Claim C1: the claim says availability counts only rentals with null
returnDate, so a game with stockTotal 1 and a single closed rental should
accept a new rental (open count 0 < 1).  The source's stock query has no
returnDate filter and counts the closed rental too, so the valid request
is rejected with 400 and nothing is inserted. -/
theorem c1_code_eval :
    openRentalCount [⟨1, 1, 1, 0, 3, 30, some 3, none⟩] 1 = 0 ∧
    openRentalCount [⟨1, 1, 1, 0, 3, 30, some 3, none⟩] 1 < 1 ∧
    (postRentals [⟨1, 1, 10⟩] [⟨1⟩] [⟨1, 1, 1, 0, 3, 30, some 3, none⟩]
      10 2 ⟨1, 1, 3⟩).1 = 400 ∧
    (postRentals [⟨1, 1, 10⟩] [⟨1⟩] [⟨1, 1, 1, 0, 3, 30, some 3, none⟩]
      10 2 ⟨1, 1, 3⟩).2 = [⟨1, 1, 1, 0, 3, 30, some 3, none⟩] := by decide

/-- Claim C10: a POST /rentals/:id/return request never changes the
rentals table; when a rental with the id exists the handler answers 404
before any write, and when none exists it dereferences an empty query
result, throws, and answers 500, so the UPDATE never runs. -/
theorem c10_return_is_read_only (rentals : List Rental) (today rid : Int) :
    (postRentalReturn rentals today rid).2 = rentals ∧
    ((findRental rentals rid).isSome = true →
      (postRentalReturn rentals today rid).1 = 404) ∧
    (findRental rentals rid = none →
      (postRentalReturn rentals today rid).1 = 500) := by
  refine ⟨postRentalReturn_snd rentals today rid, ?_, ?_⟩ <;> intro h <;>
    simp [postRentalReturn, h]

/-- Concrete instance of the C10 theorem: a table holding rental 1,
returned to, is unchanged and answered 404. -/
theorem c10_witness :
    (findRental [⟨1, 1, 1, 0, 3, 30, some 3, none⟩] 1).isSome = true ∧
    (postRentalReturn [⟨1, 1, 1, 0, 3, 30, some 3, none⟩] 5 1).1 = 404 ∧
    (postRentalReturn [⟨1, 1, 1, 0, 3, 30, some 3, none⟩] 5 1).2 =
      [⟨1, 1, 1, 0, 3, 30, some 3, none⟩] :=
  ⟨by decide,
   (c10_return_is_read_only [⟨1, 1, 1, 0, 3, 30, some 3, none⟩] 5 1).2.1 (by decide),
   (c10_return_is_read_only [⟨1, 1, 1, 0, 3, 30, some 3, none⟩] 5 1).1⟩

/-- Claim C5: the fee computation of the return handler, for a rental
with a whole number of days rented: with dailyRate = originalPrice /
daysRented and expectedReturnDate = rentDate + daysRented days, returning
on or before the expected date yields a null delayFee, and returning
later yields dailyRate times the number of whole days late. -/
theorem c5_delayFee_formula (originalPrice : Rat)
    (daysRented rentDate today : Int) :
    (today ≤ rentDate + daysRented →
      computeDelayFee originalPrice (daysRented : Rat) rentDate today = none) ∧
    (rentDate + daysRented < today →
      computeDelayFee originalPrice (daysRented : Rat) rentDate today =
        some ((originalPrice / (daysRented : Rat)) *
          ((today - (rentDate + daysRented) : Int) : Rat))) := by
  unfold computeDelayFee
  constructor <;> intro h
  · have hc : (today : Rat) ≤ (rentDate : Rat) + (daysRented : Rat) := by
      exact_mod_cast h
    rw [if_neg (by linarith)]
  · have hc : (0 : Rat) < (today : Rat) - ((rentDate : Rat) + (daysRented : Rat)) := by
      have hq : (rentDate : Rat) + (daysRented : Rat) < (today : Rat) := by
        exact_mod_cast h
      linarith
    rw [if_pos hc]
    congr 1
    push_cast
    ring

/-- Concrete instance of the C5 theorem, matching the spec's worked
example: originalPrice 30, daysRented 3, return 2 days late, fee
(30 / 3) * 2 = 20. -/
theorem c5_witness :
    ((0 : Int) + 3 < 5) ∧
    computeDelayFee 30 ((3 : Int) : Rat) 0 5 = some 20 := by
  refine ⟨by decide, ?_⟩
  have h := (c5_delayFee_formula 30 3 0 5).2 (by decide)
  rw [h]
  norm_num

/-- Claim C6: a creation that answers 201 appends exactly one rental row
whose originalPrice is the game's pricePerDay times daysRented; the
return handler and the UPDATE statement it would run preserve every
row's originalPrice, and the delete handler only ever keeps existing
rows, so no later operation changes a stored originalPrice. -/
theorem c6_originalPrice_frozen (games : List Game)
    (customers : List Customer) (rentals : List Rental) (today newId : Int)
    (req : RentalReq) (game : Game)
    (hg : findGame games req.gameId = some game)
    (hok : (postRentals games customers rentals today newId req).1 = 201) :
    (postRentals games customers rentals today newId req).2 =
      rentals ++
        [{ id := newId, customerId := req.customerId, gameId := req.gameId,
           rentDate := today, daysRented := req.daysRented,
           originalPrice := game.pricePerDay * req.daysRented,
           returnDate := none, delayFee := none }] ∧
    (∀ (rs : List Rental) (t i : Int),
      ((postRentalReturn rs t i).2).map Rental.originalPrice =
        rs.map Rental.originalPrice) ∧
    (∀ (rs : List Rental) (i t : Int) (fee : Option Rat),
      (updateRentalRow rs i t fee).map Rental.originalPrice =
        rs.map Rental.originalPrice) ∧
    (∀ (rs : List Rental) (i : Int), ∀ r ∈ (deleteRentalById rs i).2, r ∈ rs) := by
  refine ⟨?_, ?_, ?_, ?_⟩
  · simp only [postRentals, rentalsReqSchemaValid, Bool.not_true,
      Bool.false_eq_true, if_false, hg] at hok ⊢
    split_ifs at hok ⊢ <;> simp_all
  · intro rs t i
    rw [postRentalReturn_snd]
  · intro rs i t fee
    unfold updateRentalRow
    rw [List.map_map]
    refine List.map_congr_left ?_
    intro r _
    simp only [Function.comp_apply]
    split <;> rfl
  · intro rs i r hr
    rw [deleteRentalById_snd] at hr
    exact hr

/-- Concrete instance of the C6 theorem: pricePerDay 10 and daysRented 3
store originalPrice 30, the spec's worked example. -/
theorem c6_witness :
    findGame [⟨1, 1, 10⟩] (1 : Int) = some ⟨1, 1, 10⟩ ∧
    (postRentals [⟨1, 1, 10⟩] [⟨1⟩] [] 0 1 ⟨1, 1, 3⟩).1 = 201 ∧
    (postRentals [⟨1, 1, 10⟩] [⟨1⟩] [] 0 1 ⟨1, 1, 3⟩).2 =
      [{ id := 1, customerId := 1, gameId := 1, rentDate := 0, daysRented := 3,
         originalPrice := 30, returnDate := none, delayFee := none }] := by
  refine ⟨by decide, by decide, ?_⟩
  have h := (c6_originalPrice_frozen [⟨1, 1, 10⟩] [⟨1⟩] [] 0 1 ⟨1, 1, 3⟩
    ⟨1, 1, 10⟩ (by decide) (by decide)).1
  rw [h]
  norm_num

/-- Claim C8 counterexample: a create-rental request with the non-integer
daysRented 5/2 and otherwise valid data is not rejected: the joi schema
only requires a number and the handler only rejects daysRented ≤ 0, so
the request answers 201 and inserts a row, where the claim requires a
400 validation rejection with no insert. -/
theorem c8_counterexample :
    (mkRat 5 2).den ≠ 1 ∧
    (0 : Rat) < mkRat 5 2 ∧
    (postRentals [⟨1, 3, 10⟩] [⟨1⟩] [] 0 1 ⟨1, 1, mkRat 5 2⟩).1 = 201 ∧
    (postRentals [⟨1, 3, 10⟩] [⟨1⟩] [] 0 1 ⟨1, 1, mkRat 5 2⟩).2.length = 1 ∧
    (postRentals [⟨1, 3, 10⟩] [⟨1⟩] [] 0 1 ⟨1, 1, mkRat 5 2⟩).2.map
      Rental.daysRented = [mkRat 5 2] := by decide

/-- Claim C8 (amended): a create-rental request for an existing game
whose daysRented is zero or negative is rejected with 400 and inserts
nothing; non-integrality of daysRented is not checked. -/
theorem c8_nonpositive_daysRented_rejected (games : List Game)
    (customers : List Customer) (rentals : List Rental) (today newId : Int)
    (req : RentalReq) (game : Game)
    (hg : findGame games req.gameId = some game)
    (hd : req.daysRented ≤ 0) :
    (postRentals games customers rentals today newId req).1 = 400 ∧
    (postRentals games customers rentals today newId req).2 = rentals := by
  by_cases hc : (findCustomer customers req.customerId).isNone <;>
    simp [postRentals, rentalsReqSchemaValid, hg, hc, hd]

/-- Concrete instance of the amended C8 theorem: daysRented = -1 against
an existing game and customer is answered 400 with no insert. -/
theorem c8_witness :
    findGame [⟨1, 3, 10⟩] (1 : Int) = some ⟨1, 3, 10⟩ ∧
    ((-1 : Rat) ≤ 0) ∧
    (postRentals [⟨1, 3, 10⟩] [⟨1⟩] [] 0 1 ⟨1, 1, -1⟩).1 = 400 ∧
    (postRentals [⟨1, 3, 10⟩] [⟨1⟩] [] 0 1 ⟨1, 1, -1⟩).2 = [] :=
  ⟨by decide, by decide,
   (c8_nonpositive_daysRented_rejected [⟨1, 3, 10⟩] [⟨1⟩] [] 0 1 ⟨1, 1, -1⟩
     ⟨1, 3, 10⟩ (by decide) (by decide)).1,
   (c8_nonpositive_daysRented_rejected [⟨1, 3, 10⟩] [⟨1⟩] [] 0 1 ⟨1, 1, -1⟩
     ⟨1, 3, 10⟩ (by decide) (by decide)).2⟩

/-- Appending one row raises a game's rental count by one exactly when
the row references that game. -/
theorem gameRentalCount_append (rentals : List Rental) (r : Rental) (gid : Int) :
    gameRentalCount (rentals ++ [r]) gid =
      gameRentalCount rentals gid + (if r.gameId = gid then 1 else 0) := by
  simp only [gameRentalCount, List.filter_append]
  by_cases h : r.gameId = gid <;> simp [h]

/-- The create handler preserves the stock bound on the total rental
count of every game: its insert branch requires the current count for
the requested game to be below that game's stockTotal. -/
theorem postRentals_gameRentalCount (games : List Game)
    (customers : List Customer) (rentals : List Rental) (today newId : Int)
    (req : RentalReq) (gid : Int) (g : Game)
    (hg : findGame games gid = some g)
    (h : gameRentalCount rentals gid ≤ g.stockTotal) :
    gameRentalCount (postRentals games customers rentals today newId req).2 gid
      ≤ g.stockTotal := by
  simp only [postRentals, rentalsReqSchemaValid, Bool.not_true,
    Bool.false_eq_true, if_false]
  cases hfg : findGame games req.gameId with
  | none => simpa using h
  | some game =>
    simp only []
    split_ifs with h1 h2 h3 h4
    · exact h
    · exact h
    · exact h
    · exact h
    · rw [gameRentalCount_append]
      by_cases hid : req.gameId = gid
      · subst hid
        rw [hfg] at hg
        injection hg with hgg
        subst hgg
        rw [if_pos rfl]
        simp only [gameRentalCount]
        omega
      · simp only [if_neg hid]
        omega

/-- Sequential execution of lifecycle requests preserves the stock bound
on total rental counts: create preserves it, and close and cancel never
change the rentals table. -/
theorem foldl_step_gameRentalCount (games : List Game)
    (customers : List Customer) (ops : List Op) (s : List Rental)
    (hs : ∀ gid g, findGame games gid = some g →
      gameRentalCount s gid ≤ g.stockTotal) :
    ∀ gid g, findGame games gid = some g →
      gameRentalCount (ops.foldl (step games customers) s) gid ≤ g.stockTotal := by
  induction ops generalizing s with
  | nil => simpa using hs
  | cons op rest ih =>
    simp only [List.foldl_cons]
    apply ih
    intro gid g hg
    cases op with
    | create today newId req =>
      exact postRentals_gameRentalCount games customers s today newId req gid g
        hg (hs gid g hg)
    | close today rid =>
      simpa [step, postRentalReturn_snd] using hs gid g hg
    | cancel rid =>
      simpa [step, deleteRentalById_snd] using hs gid g hg

/-- Claim C9: in every rentals-table state reachable from an empty table
by a sequence of create, close and cancel requests, the number of open
rentals of a game never exceeds that game's stockTotal. -/
theorem c9_open_rentals_bounded_by_stock (games : List Game)
    (customers : List Customer) (ops : List Op) (gid : Int) (g : Game)
    (hg : findGame games gid = some g) :
    openRentalCount (run games customers ops) gid ≤ g.stockTotal := by
  refine le_trans (openRentalCount_le_gameRentalCount _ _) ?_
  unfold run
  refine foldl_step_gameRentalCount games customers ops [] ?_ gid g hg
  intro gid2 g2 _
  simp [gameRentalCount]

/-- Concrete instance of the C9 theorem: three successive create requests
against a game with stockTotal 2 leave at most 2 open rentals. -/
theorem c9_witness :
    findGame [⟨1, 2, 10⟩] (1 : Int) = some ⟨1, 2, 10⟩ ∧
    openRentalCount
      (run [⟨1, 2, 10⟩] [⟨1⟩]
        [Op.create 0 1 ⟨1, 1, 3⟩, Op.create 0 2 ⟨1, 1, 3⟩,
         Op.create 0 3 ⟨1, 1, 3⟩]) 1 ≤ 2 :=
  ⟨by decide,
   c9_open_rentals_bounded_by_stock [⟨1, 2, 10⟩] [⟨1⟩]
     [Op.create 0 1 ⟨1, 1, 3⟩, Op.create 0 2 ⟨1, 1, 3⟩,
      Op.create 0 3 ⟨1, 1, 3⟩] 1 ⟨1, 2, 10⟩ (by decide)⟩

end Boardcamp
